import Mathlib

/-!
# Verification of the `mb` command-line MODBUS utility (`mb.js`)

Shallow embedding of the configuration-resolution, argument-parsing and
command-dispatch logic of `mb.js`, together with theorems settling the
specification claims about it.

Modelling conventions:
* JavaScript values that flow through the `||` default chains are modelled by
  `JsVal` (undefined / string / integer number / boolean).  Floating point and
  exponent-form numeric tokens are outside the model (none of the claims
  involves them).
* A JavaScript number that may be `NaN` is modelled by `JsNum := Option Int`,
  with `none` standing for `NaN`.
* `process.exit(1)` paths of the parsers are modelled by `Except.error msg`
  where `msg` is the message printed before exiting; the dispatcher models
  exits with the `Dispatch.exitFatal msg` constructor.
-/

namespace MbCli

/-- A JavaScript value as it appears in the configuration override chains:
`undefined`, a string, an (integer) number, or a boolean. -/
inductive JsVal where
  | undef : JsVal
  | str (s : String) : JsVal
  | num (n : Int) : JsVal
  | bool (b : Bool) : JsVal
deriving DecidableEq, Repr

/-- JavaScript truthiness for `JsVal` (`undefined`, `""`, `0`, `false` are
falsy). -/
def jsTruthy : JsVal → Bool
  | .undef => false
  | .str s => s ≠ ""
  | .num n => n ≠ 0
  | .bool b => b

/-- The JavaScript `a || b` operator on `JsVal`. -/
def jsOr (a b : JsVal) : JsVal := if jsTruthy a then a else b

/-- JavaScript string coercion of a `JsVal` (as in `'' + v`). -/
def jsValToString : JsVal → String
  | .undef => "undefined"
  | .str s => s
  | .num n => toString n
  | .bool b => if b then "true" else "false"

/-- A JavaScript number that may be `NaN`: `none` is `NaN`. -/
abbrev JsNum := Option Int

/-- The value of a decimal digit character, `none` otherwise. -/
def decDigitVal (c : Char) : Option Nat :=
  if 48 ≤ c.toNat ∧ c.toNat ≤ 57 then some (c.toNat - 48) else none

/-- The value of a hexadecimal digit character, `none` otherwise. -/
def hexDigitVal (c : Char) : Option Nat :=
  if 48 ≤ c.toNat ∧ c.toNat ≤ 57 then some (c.toNat - 48)
  else if 97 ≤ c.toNat ∧ c.toNat ≤ 102 then some (c.toNat - 87)
  else if 65 ≤ c.toNat ∧ c.toNat ≤ 70 then some (c.toNat - 55)
  else none

/-- Longest prefix of digit values under the digit-valuation `dv`
(the way `parseInt` consumes characters). -/
def takeDigits (dv : Char → Option Nat) : List Char → List Nat
  | [] => []
  | c :: rest =>
    match dv c with
    | some d => d :: takeDigits dv rest
    | none => []

/-- Value of a digit-value list in the given base, most significant first. -/
def digitsToNat (base : Nat) (ds : List Nat) : Nat :=
  ds.foldl (fun a d => base * a + d) 0

/-- Does the character list start with `0x` or `0X`? -/
def startsHex : List Char → Bool
  | c0 :: c1 :: _ => c0 == '0' && (c1 == 'x' || c1 == 'X')
  | _ => false

/-- Magnitude part of JavaScript `parseInt(s)` (radix auto-detection):
an `0x`/`0X` prefix selects hexadecimal, otherwise decimal; the longest
valid digit prefix is consumed; no digits gives `NaN`. -/
def jsParseIntMag (cs : List Char) : Option Nat :=
  if startsHex cs then
    let ds := takeDigits hexDigitVal (cs.drop 2)
    if ds.isEmpty then none else some (digitsToNat 16 ds)
  else
    let ds := takeDigits decDigitVal cs
    if ds.isEmpty then none else some (digitsToNat 10 ds)

/-- JavaScript `parseInt` on a whitespace-stripped character list: optional
sign, then the magnitude. -/
def jsParseIntCore (cs : List Char) : JsNum :=
  match cs with
  | [] => none
  | c :: rest =>
    if c = '-' then (jsParseIntMag rest).map (fun n => -(n : Int))
    else if c = '+' then (jsParseIntMag rest).map (fun n => (n : Int))
    else (jsParseIntMag (c :: rest)).map (fun n => (n : Int))

/-- JavaScript `parseInt(s)` (no radix argument): skip leading whitespace,
optional sign, auto-detected radix, longest digit prefix; `NaN` (`none`)
when no digits are found. -/
def jsParseInt (s : String) : JsNum :=
  jsParseIntCore (s.data.dropWhile Char.isWhitespace)

/-- Magnitude part of JavaScript `parseInt(s, 16)`: an optional `0x`/`0X`
prefix is skipped, then hexadecimal digits. -/
def jsParseIntHexMag (cs : List Char) : Option Nat :=
  let cs2 := if startsHex cs then cs.drop 2 else cs
  let ds := takeDigits hexDigitVal cs2
  if ds.isEmpty then none else some (digitsToNat 16 ds)

/-- JavaScript `parseInt(s, 16)`. -/
def jsParseIntHex (s : String) : JsNum :=
  match s.data.dropWhile Char.isWhitespace with
  | [] => none
  | c :: rest =>
    if c = '-' then (jsParseIntHexMag rest).map (fun n => -(n : Int))
    else if c = '+' then (jsParseIntHexMag rest).map (fun n => (n : Int))
    else (jsParseIntHexMag (c :: rest)).map (fun n => (n : Int))

/-- The test `s.toString().substring(0,1) === '0x'` from `mb.js`:
the first character of the token (a string of length at most one) is
compared against the two-character string `0x`.  (It can never be true;
see `substringOneEq0x_false`.) -/
def substringOneEq0x (t : String) : Bool :=
  decide (t.data.take 1 = ['0', 'x'])

/-- The per-token parse shared by `argsToByteBuf` and `argsToWordBuf` in
`mb.js`: the (dead) `substring(0,1) === '0x'` branch calls
`parseInt(token.substring(2), 16)`, the live branch calls `parseInt(token)`. -/
def tokVal (t : String) : JsNum :=
  if substringOneEq0x t then jsParseIntHex (String.mk (t.data.drop 2))
  else jsParseInt t

/-- Model of `parseNumber(s, def)` from `mb.js`: returns `def` when the argument is
`undefined` (`none`), otherwise parses via the same (dead-branch) `0x` test
and `parseInt`. -/
def parseNumber (s : Option String) (def' : Int) : JsNum :=
  match s with
  | none => some def'
  | some t =>
    if substringOneEq0x t then jsParseIntHex (String.mk (t.data.drop 2))
    else jsParseInt t

/-- JavaScript `n < b` where `n` may be `NaN`: any comparison with `NaN`
is false. -/
def jsNumLt (a : JsNum) (b : Int) : Bool :=
  match a with
  | none => false
  | some n => n < b

/-- JavaScript `n > b` where `n` may be `NaN`. -/
def jsNumGt (a : JsNum) (b : Int) : Bool :=
  match a with
  | none => false
  | some n => b < n

/-- Coercion of a JavaScript number to an unsigned byte as performed by
`new Buffer(values)`: `NaN` becomes `0`, integers are taken modulo 256. -/
def toUint8 (j : JsNum) : Nat :=
  match j with
  | none => 0
  | some n => (n % 256).toNat

/-- Coercion of a JavaScript number to an unsigned 16-bit word. -/
def toUint16 (j : JsNum) : Nat :=
  match j with
  | none => 0
  | some n => (n % 65536).toNat

/-- Model of `BufferBuilder.pushUInt16` (h5.buffers): appends the word big-endian as
two bytes. -/
def pushUInt16 (j : JsNum) : List Nat :=
  [toUint16 j / 256, toUint16 j % 256]

/-- The token loop of `argsToByteBuf`: each token is parsed with `tokVal`;
a finite value outside `[0,255]` prints `Invalid data value: <token>` and
exits with code 1 (modelled by `Except.error`); otherwise the value (possibly
`NaN`) is pushed. -/
def byteLoop : List String → Except String (List JsNum)
  | [] => .ok []
  | t :: rest =>
    let number := tokVal t
    if jsNumLt number 0 ∨ jsNumGt number 255 then
      .error ("Invalid data value: " ++ t)
    else
      (byteLoop rest).map (fun vs => number :: vs)

/-- Model of `argsToByteBuf(args, start)` from `mb.js`: parses the tokens from index
`start` and materialises them as a byte buffer (`new Buffer(values)`),
coercing `NaN` entries to 0. -/
def argsToByteBuf (argv : List String) (start : Nat) : Except String (List Nat) :=
  (byteLoop (argv.drop start)).map (List.map toUint8)

/-- The token loop of `argsToWordBuf`: like `byteLoop` but bounds-checked
against `[0,65535]`. -/
def wordLoop : List String → Except String (List JsNum)
  | [] => .ok []
  | t :: rest =>
    let number := tokVal t
    if jsNumLt number 0 ∨ jsNumGt number 65535 then
      .error ("Invalid data value: " ++ t)
    else
      (wordLoop rest).map (fun vs => number :: vs)

/-- Model of `argsToWordBuf(args, start)` from `mb.js`: parses the tokens from index
`start` and pushes each as a 16-bit word (two bytes) via
`BufferBuilder.pushUInt16`; the result is the byte list of the built buffer
(so its `length` counts bytes, not words). -/
def argsToWordBuf (argv : List String) (start : Nat) : Except String (List Nat) :=
  (wordLoop (argv.drop start)).map (fun ns => (ns.map pushUInt16).flatten)

/-- The configuration fields of `mb.js` that participate in the
CLI/environment/file/builtin override chain (plus the `autoOpen` flag set on
the serial branch of the MAC-address test). -/
structure Config where
  portName : JsVal
  baudRate : JsVal
  defaultUnit : JsVal
  transportType : JsVal
  connectionType : JsVal
  canRate : JsVal
  canMyid : JsVal
  autoOpen : Option Bool := none
deriving DecidableEq, Repr

/-- Model of `CONFIG_DEFAULTS` from `mb.js` (the fields relevant to the override
chain). -/
def CONFIG_DEFAULTS : Config :=
  { portName := .str "use_--port_to_select_port"
    baudRate := .num 115200
    defaultUnit := .num 1
    transportType := .str "rtu"
    connectionType := .str "serial"
    canRate := .num 250000
    canMyid := .num 254 }

/-- The command-line options of `mb.js` as produced by minimist.  Value
options are `JsVal` (`undef` when the flag is absent); bare boolean flags
are `Bool`. -/
structure Args where
  port : JsVal := .undef
  slave : JsVal := .undef
  baudrate : JsVal := .undef
  baud : JsVal := .undef
  baudRate : JsVal := .undef
  transport : JsVal := .undef
  connection : JsVal := .undef
  canrate : JsVal := .undef
  canid : JsVal := .undef
  save : Bool := false
  l : Bool := false
  loop : Bool := false
  default : Bool := false
  out : Option String := none
deriving DecidableEq, Repr

/-- The environment variables consulted by `mb.js` (`undef` when unset;
environment values are strings when set). -/
structure Env where
  MODBUS_PORT : JsVal := .undef
  MODBUS_SLAVE : JsVal := .undef
  MODBUS_BAUDRATE : JsVal := .undef
  MODBUS_TRANSPORT : JsVal := .undef
  MODBUS_CONNECTION : JsVal := .undef
  MODBUS_CANRATE : JsVal := .undef
  MODBUS_CANID : JsVal := .undef
deriving DecidableEq, Repr

/-- The startup config load of `mb.js`: with `--default` the builtins are
used; otherwise `require(CONFIG_FILE)` either yields the file's
configuration or throws (file absent or unparsable, both `Except.error`),
in which case the builtins are used.  The catch makes this path total:
it never terminates the process. -/
def loadConfig (useDefault : Bool) (file : Except Unit Config) : Config :=
  if useDefault then CONFIG_DEFAULTS
  else
    match file with
    | .ok c => c
    | .error _ => CONFIG_DEFAULTS

/-- The override chain of `mb.js` (lines 113-144): for each recognized key,
`cliValue || envValue || configValue` with JavaScript `||`. -/
def applyOverrides (args : Args) (env : Env) (c : Config) : Config :=
  { portName := jsOr args.port (jsOr env.MODBUS_PORT c.portName)
    defaultUnit := jsOr args.slave (jsOr env.MODBUS_SLAVE c.defaultUnit)
    baudRate :=
      jsOr args.baudrate (jsOr args.baud (jsOr args.baudRate
        (jsOr env.MODBUS_BAUDRATE c.baudRate)))
    transportType := jsOr args.transport (jsOr env.MODBUS_TRANSPORT c.transportType)
    connectionType :=
      jsOr args.connection (jsOr env.MODBUS_CONNECTION c.connectionType)
    canRate := jsOr args.canrate (jsOr env.MODBUS_CANRATE c.canRate)
    canMyid := jsOr args.canid (jsOr env.MODBUS_CANID c.canMyid)
    autoOpen := c.autoOpen }

/-- Is `c` an upper- or lower-case hexadecimal digit (`[0-9A-F]` with the
`i` flag)? -/
def isHexDigitChar (c : Char) : Bool := (hexDigitVal c).isSome

/-- Is `c` a MAC-address pair separator (`[:-]`)? -/
def isMacSep (c : Char) : Bool := c = ':' ∨ c = '-'

/-- The regular expression `^([0-9A-F]{2}[:-]){5}([0-9A-F]{2})$/i` of
`mb.js`: six hex-digit pairs joined by `:` or `-`. -/
def macMatch (s : String) : Bool :=
  match s.data with
  | [a, b, s1, c, d, s2, e, f, s3, g, h, s4, i, j, s5, k, l] =>
    isHexDigitChar a ∧ isHexDigitChar b ∧ isMacSep s1 ∧
    isHexDigitChar c ∧ isHexDigitChar d ∧ isMacSep s2 ∧
    isHexDigitChar e ∧ isHexDigitChar f ∧ isMacSep s3 ∧
    isHexDigitChar g ∧ isHexDigitChar h ∧ isMacSep s4 ∧
    isHexDigitChar i ∧ isHexDigitChar j ∧ isMacSep s5 ∧
    isHexDigitChar k ∧ isHexDigitChar l
  | _ => false

/-- The MAC-address test of `mb.js` (lines 160-173): when `-l` is not given
and the (truthy) port name matches the MAC pattern, the transport is
rewritten to `ip` and the connection to `ble`; otherwise the serial branch
sets `autoOpen := false`. -/
def macRewrite (args : Args) (c : Config) : Config :=
  if ¬args.l ∧ jsTruthy c.portName ∧ macMatch (jsValToString c.portName) then
    { c with transportType := .str "ip", connectionType := .str "ble" }
  else
    { c with autoOpen := some false }

/-- The configuration after the load and the CLI/env override chain — the
value `mb.js` holds when it reaches the `--save` block. -/
def resolveConfig (args : Args) (env : Env) (file : Except Unit Config) : Config :=
  applyOverrides args env (loadConfig args.default file)

/-- The configuration serialized by the `--save` block of `mb.js`
(lines 150-156), `none` when `--save` was not given.  The write uses the
configuration as it stands at that point: after the override chain, before
the MAC-address rewrite. -/
def savedConfig (args : Args) (env : Env) (file : Except Unit Config) :
    Option Config :=
  if args.save then some (resolveConfig args env file) else none

/-- The configuration after the MAC-address rewrite — the value used for
connection setup and dispatch. -/
def finalConfig (args : Args) (env : Env) (file : Except Unit Config) : Config :=
  macRewrite args (resolveConfig args env file)

/-- Observable startup events of `mb.js`, in program order. -/
inductive Ev where
  | writeFile (c : Config) : Ev
  | openConn (c : Config) : Ev
  | dispatch : Ev
deriving DecidableEq, Repr

/-- The startup sequence of `mb.js` as an event trace together with an early
exit code: config load, override chain, optional `--save` write (an
unhandled `fs.writeFileSync` failure aborts the process with the uncaught
exception exit code 1), MAC-address rewrite, connection open, dispatch.
`writeOk` models whether the filesystem write succeeds. -/
def startupTrace (args : Args) (env : Env) (file : Except Unit Config)
    (writeOk : Bool) : List Ev × Option Nat :=
  let c1 := resolveConfig args env file
  if args.save ∧ ¬writeOk then
    ([], some 1)
  else
    ((if args.save then [Ev.writeFile c1] else []) ++
      [Ev.openConn (macRewrite args c1), Ev.dispatch], none)

/-- Is the token a minimist hexadecimal numeral (`^0x[0-9a-f]+$/i`)? -/
def isHexToken (s : String) : Bool :=
  match s.data with
  | '0' :: 'x' :: rest => ¬rest.isEmpty ∧ rest.all isHexDigitChar
  | _ => false

/-- Is the token an optionally signed string of decimal digits?  (The
integer fragment of minimist's numeric test; float and exponent forms are
outside this model.) -/
def isDecIntToken (s : String) : Bool :=
  match s.data with
  | [] => false
  | c :: rest =>
    if c = '-' ∨ c = '+' then ¬rest.isEmpty ∧ rest.all Char.isDigit
    else (c :: rest).all Char.isDigit

/-- Numeric value of a minimist hexadecimal token. -/
def hexTokenVal (s : String) : Int :=
  Int.ofNat (digitsToNat 16 ((s.data.drop 2).map (fun c => (hexDigitVal c).getD 0)))

/-- Numeric value of a signed decimal integer token. -/
def decTokenVal (s : String) : Int :=
  match s.data with
  | '-' :: rest => -Int.ofNat (digitsToNat 10 (rest.map (fun c => (decDigitVal c).getD 0)))
  | '+' :: rest => Int.ofNat (digitsToNat 10 (rest.map (fun c => (decDigitVal c).getD 0)))
  | cs => Int.ofNat (digitsToNat 10 (cs.map (fun c => (decDigitVal c).getD 0)))

/-- minimist's numeric auto-conversion of a positional token (a dependency
of the repository, modelled for its integer and hexadecimal forms):
numeric-looking tokens become numbers, everything else stays a string. -/
def minimistVal (s : String) : JsVal :=
  if isHexToken s then .num (hexTokenVal s)
  else if isDecIntToken s then .num (decTokenVal s)
  else .str s

/-- The minimist value of positional argument `args._[i]`
(`undefined` when absent). -/
def posVal (pos : List String) (i : Nat) : JsVal :=
  match pos.get? i with
  | none => .undef
  | some t => minimistVal t

/-- Model of `args._[i] || d` as used for addresses, quantities and ids in
`doAction`. -/
def posOr (pos : List String) (i : Nat) (d : JsVal) : JsVal :=
  jsOr (posVal pos i) d

/-- Model of `var type = args._[1] || 'unknown'` from `doAction`. -/
def typeArg (pos : List String) : JsVal :=
  jsOr (posVal pos 1) (.str "unknown")

/-- The list `['read', 'write', 'command']` checked before dispatch. -/
def actionList : List JsVal := [.str "read", .str "write", .str "command"]

/-- Acceptance complement of the rejection test
`['read','write','command'].indexOf(action) < 0` of `mb.js` (line 609).
of `mb.js` (line 609); this is its acceptance complement. -/
def actionAccepted (pos : List String) : Bool :=
  actionList.any (fun v => decide (v = posVal pos 0))

/-- One protocol-master invocation (or fatal exit) produced by `doAction`.
`exitFatal msg` models `console.error(msg)` followed by `exit(1)`. -/
inductive Dispatch where
  | exitFatal (msg : String) : Dispatch
  | readCoils (address quantity : JsVal) : Dispatch
  | readDiscreteInputs (address quantity : JsVal) : Dispatch
  | readHoldingRegisters (address quantity : JsVal) : Dispatch
  | readInputRegisters (address quantity : JsVal) : Dispatch
  | reportSlaveId : Dispatch
  | readFifo8 (id max : JsVal) : Dispatch
  | readObject (id : JsVal) : Dispatch
  | readMemory (address length : JsNum) : Dispatch
  | writeSingleCoil (address values : JsVal) : Dispatch
  | writeMultipleRegisters (address : JsVal) (values : List Nat) : Dispatch
  | writeFifo8 (id : JsVal) (values : List JsVal) : Dispatch
  | writeMemory (address : JsNum) (values : List Nat) : Dispatch
  | command (id : JsVal) (values : List Nat) : Dispatch
deriving DecidableEq, Repr

/-- The `case 'read'` arm of `doAction` in `mb.js`, switching on the type
argument. -/
def doRead (pos : List String) : Dispatch :=
  match typeArg pos with
  | .str "coil" => .readCoils (posOr pos 2 (.num 0)) (posOr pos 3 (.num 1))
  | .str "discrete" => .readDiscreteInputs (posOr pos 2 (.num 0)) (posOr pos 3 (.num 1))
  | .str "holding" => .readHoldingRegisters (posOr pos 2 (.num 0)) (posOr pos 3 (.num 1))
  | .str "input" => .readInputRegisters (posOr pos 2 (.num 0)) (posOr pos 3 (.num 1))
  | .str "slave" => .reportSlaveId
  | .str "fifo" => .readFifo8 (posOr pos 2 (.num 0)) (posOr pos 3 (.num 250))
  | .str "object" => .readObject (posOr pos 2 (.num 0))
  | .str "memory" =>
    .readMemory (parseNumber (pos.get? 2) 0) (parseNumber (pos.get? 3) 1)
  | ty => .exitFatal ("Trying to read unknown item " ++ jsValToString ty)

/-- The `case 'holding'` arm of the write switch in `doAction`:
`argsToWordBuf(args._, 3)` followed by the `values.length < 2` check (a
byte count, since `argsToWordBuf` returns a buffer of two bytes per word). -/
def doWriteHolding (pos : List String) : Dispatch :=
  match argsToWordBuf pos 3 with
  | .error msg => .exitFatal msg
  | .ok values =>
    if values.length < 2 then .exitFatal "No values specified "
    else .writeMultipleRegisters (posOr pos 2 (.num 0)) values

/-- The `case 'write'` arm of `doAction` in `mb.js`.  The source's
`case 'object'` is commented out, so it is not a case here and `object`
falls to the unknown-write default. -/
def doWrite (pos : List String) : Dispatch :=
  match typeArg pos with
  | .str "coil" => .writeSingleCoil (posOr pos 2 (.num 0)) (posOr pos 3 (.num 1))
  | .str "holding" => doWriteHolding pos
  | .str "fifo" => .writeFifo8 (posOr pos 2 (.num 0)) [posOr pos 3 (.num 0)]
  | .str "memory" =>
    match argsToByteBuf pos 3 with
    | .error msg => .exitFatal msg
    | .ok values => .writeMemory (parseNumber (pos.get? 2) 0) values
  | ty => .exitFatal ("Trying to write unknown item " ++ jsValToString ty)

/-- The `case 'command'` arm of `doAction` in `mb.js`.  The source guard
`args.length < 2` compares `undefined` with 2 (the minimist object has no
`length` property), which is false, so no guard is modelled. -/
def doCommand (pos : List String) : Dispatch :=
  match argsToByteBuf pos 2 with
  | .error msg => .exitFatal msg
  | .ok buf => .command (posVal pos 1) buf

/-- Model of `doAction` from `mb.js`, over the positional argument tokens
`args._` (`pos.get? 0` is the action, `pos.get? 1` the type). -/
def doAction (pos : List String) : Dispatch :=
  match posVal pos 0 with
  | .str "read" => doRead pos
  | .str "write" => doWrite pos
  | .str "command" => doCommand pos
  | a => .exitFatal ("Unknown action: " ++ jsValToString a)

/-- The observable effect of one call of `output(err, response)`:
the exit code taken (if any), the lines printed to stdout, and whether the
next `doAction` was scheduled (`setImmediate`). -/
structure OutEffect where
  exitCode : Option Nat
  printed : List String
  scheduledNext : Bool
deriving DecidableEq, Repr

/-- Model of `Buffer.prototype.join(',')` on the response bytes. -/
def joinComma (ns : List Nat) : String :=
  String.intercalate "," (ns.map toString)

/-- Model of `output(err, response)` from `mb.js`.  `elapsedMs` is
`new Date().getTime() - startTime`, where `startTime` was recorded in the
master's `connected` handler; `respBytes` is `response.toBuffer()`;
`outOpt`/`loop` are the `--out` and `--loop` flags. -/
def output (err : Option String) (outOpt : Option String) (loop : Bool)
    (elapsedMs : Int) (respBytes : List Nat) : OutEffect :=
  if err.isSome then
    { exitCode := some 1, printed := [], scheduledNext := false }
  else
    let printed :=
      if outOpt = some "csv" then
        [toString elapsedMs ++ "," ++ joinComma respBytes]
      else []
    if loop then
      { exitCode := none, printed := printed, scheduledNext := true }
    else
      { exitCode := some 0, printed := printed, scheduledNext := false }

/-! ## Helper lemmas -/

/-- The source's `substring(0,1) === '0x'` comparison is always false: a
string of length at most one never equals the two-character string `0x`. -/
theorem substringOneEq0x_false (t : String) : substringOneEq0x t = false := by
  unfold substringOneEq0x
  cases t.data with
  | nil => simp
  | cons c l => simp [List.take]

/-- With its dead `0x` branch eliminated, the token parse of the buffer
builders is exactly `parseInt(token)`. -/
theorem tokVal_eq_jsParseInt (t : String) : tokVal t = jsParseInt t := by
  unfold tokVal
  rw [substringOneEq0x_false]
  simp

/-- With its dead `0x` branch eliminated, `parseNumber` on a present token
is exactly `parseInt(token)`. -/
theorem parseNumber_some (t : String) (d : Int) :
    parseNumber (some t) d = jsParseInt t := by
  show (if substringOneEq0x t = true then _ else jsParseInt t) = jsParseInt t
  rw [substringOneEq0x_false]
  simp

theorem takeDigits_append_stop {dv : Char → Option Nat} {x : Char}
    (hx : dv x = none) (l k : List Char) :
    takeDigits dv (l ++ x :: k) = takeDigits dv l := by
  induction l with
  | nil => simp [takeDigits, hx]
  | cons c l ih =>
    simp only [List.cons_append, takeDigits]
    cases h : dv c <;> simp [h, ih]

theorem takeDigits_all {dv : Char → Option Nat} (l : List Char)
    (h : ∀ c ∈ l, (dv c).isSome = true) :
    takeDigits dv l = l.map (fun c => (dv c).getD 0) := by
  induction l with
  | nil => rfl
  | cons c l ih =>
    have hc := h c (by simp)
    obtain ⟨d, hd⟩ := Option.isSome_iff_exists.mp hc
    simp only [takeDigits, hd, List.map_cons]
    rw [ih (fun c hc => h c (by simp [hc]))]
    simp [hd]

theorem decDigitVal_colon : decDigitVal ':' = none := by decide

theorem hexDigitVal_colon : hexDigitVal ':' = none := by decide

theorem jsParseIntMag_append_colon (l k : List Char) :
    jsParseIntMag (l ++ ':' :: k) = jsParseIntMag l := by
  match l with
  | [] => cases k <;> rfl
  | [c] =>
    cases h : decDigitVal c <;>
      simp [jsParseIntMag, startsHex, takeDigits, h, decDigitVal_colon]
  | c0 :: c1 :: l' =>
    have hs : startsHex ((c0 :: c1 :: l') ++ ':' :: k) = startsHex (c0 :: c1 :: l') := rfl
    have hd : ((c0 :: c1 :: l') ++ ':' :: k).drop 2 = l' ++ ':' :: k := rfl
    have hd2 : (c0 :: c1 :: l').drop 2 = l' := rfl
    unfold jsParseIntMag
    rw [hs, hd, hd2, takeDigits_append_stop hexDigitVal_colon,
      takeDigits_append_stop decDigitVal_colon]

theorem jsParseIntCore_append_colon (l k : List Char) :
    jsParseIntCore (l ++ ':' :: k) = jsParseIntCore l := by
  match l with
  | [] =>
    simp only [List.nil_append]
    have h : jsParseIntMag (':' :: k) = jsParseIntMag [] := by
      simpa using jsParseIntMag_append_colon [] k
    show (jsParseIntMag (':' :: k)).map (fun n => (n : Int)) = jsParseIntCore []
    rw [h]
    rfl
  | c :: l' =>
    simp only [List.cons_append, jsParseIntCore]
    by_cases h1 : c = '-'
    · simp only [h1, if_true]
      rw [jsParseIntMag_append_colon]
    · by_cases h2 : c = '+'
      · simp only [h1, h2, if_false, if_true]
        rw [jsParseIntMag_append_colon]
      · simp only [h1, h2, if_false]
        rw [show c :: (l' ++ ':' :: k) = (c :: l') ++ ':' :: k from rfl,
          jsParseIntMag_append_colon]

theorem jsParseIntCore_dropWhile_colon (l k : List Char) :
    jsParseIntCore ((l ++ ':' :: k).dropWhile Char.isWhitespace) =
      jsParseIntCore (l.dropWhile Char.isWhitespace) := by
  induction l with
  | nil =>
    simp only [List.nil_append, List.dropWhile]
    rw [show Char.isWhitespace ':' = false from rfl]
    simpa using jsParseIntCore_append_colon [] k
  | cons c l ih =>
    simp only [List.cons_append, List.dropWhile]
    cases hw : c.isWhitespace with
    | true => simpa [hw] using ih
    | false =>
      simp only [hw]
      exact jsParseIntCore_append_colon (c :: l) k

/-- Appending `:count` to a token does not change its `parseInt` value:
the colon stops the digit scan in every branch. -/
theorem jsParseInt_colon (s k : String) :
    jsParseInt (s ++ ":" ++ k) = jsParseInt s := by
  unfold jsParseInt
  have hdata : (s ++ ":" ++ k).data = s.data ++ ':' :: k.data := by
    show (s.data ++ [':']) ++ k.data = s.data ++ ':' :: k.data
    rw [List.append_assoc]
    rfl
  rw [hdata]
  exact jsParseIntCore_dropWhile_colon s.data k.data

theorem decDigit_ne {c d : Char} (h : (decDigitVal c).isSome = true)
    (hd : (decDigitVal d).isSome = false) : c ≠ d := by
  intro e
  rw [e, hd] at h
  exact absurd h (by simp)

theorem not_ws_of_decDigit {c : Char} (h : (decDigitVal c).isSome = true) :
    c.isWhitespace = false := by
  have h1 : c ≠ ' ' := decDigit_ne h (by decide)
  have h2 : c ≠ '\t' := decDigit_ne h (by decide)
  have h3 : c ≠ '\r' := decDigit_ne h (by decide)
  have h4 : c ≠ '\n' := decDigit_ne h (by decide)
  simp [Char.isWhitespace, h1, h2, h3, h4]

theorem startsHex_false_of_dec {l : List Char}
    (h : ∀ c ∈ l, (decDigitVal c).isSome = true) : startsHex l = false := by
  match l with
  | [] => rfl
  | [c] => rfl
  | c0 :: c1 :: rest =>
    have h1 := h c1 (by simp)
    have hx : c1 ≠ 'x' := decDigit_ne h1 (by decide)
    have hX : c1 ≠ 'X' := decDigit_ne h1 (by decide)
    simp [startsHex, hx, hX]

/-- On a nonempty all-decimal-digit token, `parseInt` returns its decimal
value. -/
theorem jsParseInt_decimal (t : String) (hne : t.data ≠ [])
    (h : ∀ c ∈ t.data, (decDigitVal c).isSome = true) :
    jsParseInt t =
      some (Int.ofNat (digitsToNat 10 (t.data.map (fun c => (decDigitVal c).getD 0)))) := by
  obtain ⟨c, cs, hd⟩ := List.exists_cons_of_ne_nil hne
  unfold jsParseInt
  rw [hd] at h ⊢
  have hc : (decDigitVal c).isSome = true := h c (by simp)
  rw [List.dropWhile_cons, not_ws_of_decDigit hc]
  simp only [Bool.false_eq_true, if_false]
  have hminus : c ≠ '-' := decDigit_ne hc (by decide)
  have hplus : c ≠ '+' := decDigit_ne hc (by decide)
  simp only [jsParseIntCore]
  rw [if_neg hminus, if_neg hplus]
  unfold jsParseIntMag
  rw [startsHex_false_of_dec h]
  simp only [Bool.false_eq_true, if_false]
  rw [takeDigits_all _ h]
  simp

/-- On `0x` followed by a nonempty all-hex-digit token, `parseInt` returns
its hexadecimal value. -/
theorem jsParseInt_hexadecimal (t : String) (hne : t.data ≠ [])
    (h : ∀ c ∈ t.data, (hexDigitVal c).isSome = true) :
    jsParseInt ("0x" ++ t) =
      some (Int.ofNat (digitsToNat 16 (t.data.map (fun c => (hexDigitVal c).getD 0)))) := by
  have hd : ("0x" ++ t).data = '0' :: 'x' :: t.data := rfl
  unfold jsParseInt
  rw [hd]
  rw [show ('0' :: 'x' :: t.data).dropWhile Char.isWhitespace = '0' :: 'x' :: t.data from by
    rw [List.dropWhile_cons]
    simp]
  show (jsParseIntMag ('0' :: 'x' :: t.data)).map (fun n => (n : Int)) = _
  unfold jsParseIntMag
  rw [show startsHex ('0' :: 'x' :: t.data) = true from rfl]
  simp only [if_true]
  rw [show ('0' :: 'x' :: t.data).drop 2 = t.data from rfl]
  rw [takeDigits_all _ h]
  obtain ⟨c, cs, hdd⟩ := List.exists_cons_of_ne_nil hne
  rw [hdd]
  simp

theorem byteLoop_cons (t : String) (rest : List String) :
    byteLoop (t :: rest) =
      if jsNumLt (tokVal t) 0 = true ∨ jsNumGt (tokVal t) 255 = true then
        .error ("Invalid data value: " ++ t)
      else (byteLoop rest).map (fun vs => tokVal t :: vs) := rfl

theorem wordLoop_cons (t : String) (rest : List String) :
    wordLoop (t :: rest) =
      if jsNumLt (tokVal t) 0 = true ∨ jsNumGt (tokVal t) 65535 = true then
        .error ("Invalid data value: " ++ t)
      else (wordLoop rest).map (fun vs => tokVal t :: vs) := rfl

theorem range_cond_iff (v : JsNum) (b : Int) :
    (jsNumLt v 0 = true ∨ jsNumGt v b = true) ↔
      ∃ n, v = some n ∧ (n < 0 ∨ b < n) := by
  cases v <;> simp [jsNumLt, jsNumGt]

theorem exceptMap_error_iff {α β γ : Type} (x : Except α β) (f : β → γ) :
    (∃ m, x.map f = .error m) ↔ (∃ m, x = .error m) := by
  cases x <;> simp [Except.map]

/-- The byte loop fails exactly when some token parses to a finite value
outside the byte range. -/
theorem byteLoop_error_iff (toks : List String) :
    (∃ m, byteLoop toks = .error m) ↔
      ∃ t ∈ toks, ∃ n : Int, tokVal t = some n ∧ (n < 0 ∨ 255 < n) := by
  induction toks with
  | nil => simp [byteLoop]
  | cons t rest ih =>
    rw [byteLoop_cons]
    by_cases hc : jsNumLt (tokVal t) 0 = true ∨ jsNumGt (tokVal t) 255 = true
    · rw [if_pos hc]
      simp only [List.mem_cons]
      constructor
      · intro _
        exact ⟨t, Or.inl rfl, (range_cond_iff _ _).mp hc⟩
      · intro _
        exact ⟨_, rfl⟩
    · rw [if_neg hc]
      rw [exceptMap_error_iff, ih]
      constructor
      · rintro ⟨u, hu, hn⟩
        exact ⟨u, by simp [hu], hn⟩
      · rintro ⟨u, hu, hn⟩
        rcases List.mem_cons.mp hu with h | h
        · exact absurd ((range_cond_iff _ _).mpr (h ▸ hn)) hc
        · exact ⟨u, h, hn⟩

/-- The word loop fails exactly when some token parses to a finite value
outside the word range. -/
theorem wordLoop_error_iff (toks : List String) :
    (∃ m, wordLoop toks = .error m) ↔
      ∃ t ∈ toks, ∃ n : Int, tokVal t = some n ∧ (n < 0 ∨ 65535 < n) := by
  induction toks with
  | nil => simp [wordLoop]
  | cons t rest ih =>
    rw [wordLoop_cons]
    by_cases hc : jsNumLt (tokVal t) 0 = true ∨ jsNumGt (tokVal t) 65535 = true
    · rw [if_pos hc]
      simp only [List.mem_cons]
      constructor
      · intro _
        exact ⟨t, Or.inl rfl, (range_cond_iff _ _).mp hc⟩
      · intro _
        exact ⟨_, rfl⟩
    · rw [if_neg hc]
      rw [exceptMap_error_iff, ih]
      constructor
      · rintro ⟨u, hu, hn⟩
        exact ⟨u, by simp [hu], hn⟩
      · rintro ⟨u, hu, hn⟩
        rcases List.mem_cons.mp hu with h | h
        · exact absurd ((range_cond_iff _ _).mpr (h ▸ hn)) hc
        · exact ⟨u, h, hn⟩

/-- The word loop yields one parsed value per token. -/
theorem wordLoop_length (toks : List String) (ns : List JsNum)
    (h : wordLoop toks = .ok ns) : ns.length = toks.length := by
  induction toks generalizing ns with
  | nil =>
    simp only [wordLoop] at h
    cases h
    rfl
  | cons t rest ih =>
    rw [wordLoop_cons] at h
    by_cases hc : jsNumLt (tokVal t) 0 = true ∨ jsNumGt (tokVal t) 65535 = true
    · rw [if_pos hc] at h
      cases h
    · rw [if_neg hc] at h
      cases h2 : wordLoop rest with
      | error m => rw [h2] at h; cases h
      | ok vs =>
        rw [h2] at h
        cases h
        simp [ih vs h2]

/-- Each 16-bit push contributes exactly two bytes to the built buffer. -/
theorem pushUInt16_flatten_length (ns : List JsNum) :
    ((ns.map pushUInt16).flatten).length = 2 * ns.length := by
  induction ns with
  | nil => rfl
  | cons n ns ih =>
    simp only [List.map_cons, List.flatten_cons, List.length_append, ih,
      List.length_cons, pushUInt16, List.length_cons, List.length_nil]
    ring

/-- Unfolding of the write-holding arm once the word buffer is known. -/
theorem doWriteHolding_ok (pos : List String) (ws : List Nat)
    (h : argsToWordBuf pos 3 = .ok ws) :
    doWriteHolding pos =
      if ws.length < 2 then .exitFatal "No values specified "
      else .writeMultipleRegisters (posOr pos 2 (.num 0)) ws := by
  unfold doWriteHolding
  rw [h]

/-! ## Claim theorems -/

/-- Claim C1 — counterexample.  The CLI value `--canid=0` is explicitly
supplied (minimist's unset sentinel is `undefined`, and `num 0` is not it),
`MODBUS_CANID=5` is set in the environment, and the builtin default is 254;
the effective CAN node id is the environment's `"5"`, not the CLI's 0:
in the source's `||` chain every falsy CLI value loses, so an explicit CLI
value does not always win. -/
theorem claim_C1_counterexample :
    ({ canid := .num 0 } : Args).canid ≠ JsVal.undef ∧
    (applyOverrides { canid := .num 0 } { MODBUS_CANID := .str "5" }
      CONFIG_DEFAULTS).canMyid = JsVal.str "5" ∧
    JsVal.str "5" ≠ JsVal.num 0 := by
  decide

/-- Claim C1 — amended.  For every recognized key, an explicitly supplied
truthy CLI value resolves as the effective value, winning over the
environment variable, the persisted-defaults file value and the built-in
default; a falsy explicit CLI value (number 0, empty string) is treated as
unset by the `||` chain, and the environment/file layer wins instead. -/
theorem claim_C1_amended (a : Args) (e : Env) (c : Config) :
    (jsTruthy a.port = true → (applyOverrides a e c).portName = a.port) ∧
    (jsTruthy a.slave = true → (applyOverrides a e c).defaultUnit = a.slave) ∧
    (jsTruthy a.baudrate = true → (applyOverrides a e c).baudRate = a.baudrate) ∧
    (jsTruthy a.transport = true →
      (applyOverrides a e c).transportType = a.transport) ∧
    (jsTruthy a.connection = true →
      (applyOverrides a e c).connectionType = a.connection) ∧
    (jsTruthy a.canrate = true → (applyOverrides a e c).canRate = a.canrate) ∧
    (jsTruthy a.canid = true → (applyOverrides a e c).canMyid = a.canid) ∧
    (jsTruthy a.canid = false →
      (applyOverrides a e c).canMyid = jsOr e.MODBUS_CANID c.canMyid) ∧
    (jsTruthy a.port = false →
      (applyOverrides a e c).portName = jsOr e.MODBUS_PORT c.portName) := by
  refine ⟨?_, ?_, ?_, ?_, ?_, ?_, ?_, ?_, ?_⟩ <;> intro h <;>
    simp [applyOverrides, jsOr, h]

/-- Claim C1 — witness: the spec's own example, CLI `--baudrate=19200`
against `MODBUS_BAUDRATE=9600` and builtin 115200, resolves to 19200. -/
theorem claim_C1_witness :
    (applyOverrides { baudrate := .num 19200 }
      { MODBUS_BAUDRATE := .str "9600" } CONFIG_DEFAULTS).baudRate =
      JsVal.num 19200 :=
  (claim_C1_amended { baudrate := .num 19200 }
    { MODBUS_BAUDRATE := .str "9600" } CONFIG_DEFAULTS).2.2.1 (by decide)

/-- Claim C2 — counterexample.  The token `0x41:3` is a `value:count` form
with value 0x41 in `[0,255]` and count 3 in `(0,65535)`, yet the byte
parser does not expand it to three repetitions: `["0x41:3", "0xFF"]` does
not yield `[0x41,0x41,0x41,0xFF]`. -/
theorem claim_C2_counterexample :
    argsToByteBuf ["0x41:3", "0xFF"] 0 ≠ Except.ok [0x41, 0x41, 0x41, 0xFF] := by
  intro h
  rw [show argsToByteBuf ["0x41:3", "0xFF"] 0 = Except.ok [65, 255] from rfl] at h
  exact absurd (Except.ok.inj h) (by decide)

/-- Claim C2 — amended.  There is no run syntax: a `value:count` token
parses as the value alone (the digit scan of `parseInt` stops at the
colon), contributing exactly one byte; in particular
`["0x41:3", "0xFF"]` yields `[0x41, 0xFF]`. -/
theorem claim_C2_amended :
    (∀ v k : String, tokVal (v ++ ":" ++ k) = tokVal v) ∧
    argsToByteBuf ["0x41:3", "0xFF"] 0 = Except.ok [0x41, 0xFF] := by
  refine ⟨?_, rfl⟩
  intro v k
  rw [tokVal_eq_jsParseInt, tokVal_eq_jsParseInt, jsParseInt_colon]

/-- Claim C3 — counterexample.  The single-word value list `["0x100"]` is
not rejected: `write holding 0 0x100` resolves to a two-byte word buffer
(`values.length` counts bytes, two per word), passes the `length < 2`
check, and invokes `writeMultipleRegisters`. -/
theorem claim_C3_counterexample :
    doAction ["write", "holding", "0", "0x100"] =
      Dispatch.writeMultipleRegisters (JsVal.num 0) [1, 0] := by
  decide

/-- Claim C3 — amended.  A write-holding command is rejected as a fatal
argument error exactly when its value token list is empty: the buffer
length check is in bytes and each word contributes two bytes, so any
command with at least one successfully parsed value word (including the
single word `["0x100"]`) proceeds to `writeMultipleRegisters`. -/
theorem claim_C3_amended (addr : String) (rest : List String) :
    (rest = [] →
      doAction ("write" :: "holding" :: addr :: rest) =
        Dispatch.exitFatal "No values specified ") ∧
    (∀ ws, argsToWordBuf ("write" :: "holding" :: addr :: rest) 3 =
        Except.ok ws →
      ws.length = 2 * rest.length ∧
      (rest ≠ [] →
        doAction ("write" :: "holding" :: addr :: rest) =
          Dispatch.writeMultipleRegisters
            (posOr ("write" :: "holding" :: addr :: rest) 2 (.num 0)) ws)) := by
  constructor
  · rintro rfl
    rfl
  · intro ws hws
    have hlen : ws.length = 2 * rest.length := by
      unfold argsToWordBuf at hws
      rw [show ("write" :: "holding" :: addr :: rest).drop 3 = rest from rfl] at hws
      cases h2 : wordLoop rest with
      | error m => rw [h2] at hws; cases hws
      | ok ns =>
        rw [h2] at hws
        cases hws
        rw [pushUInt16_flatten_length, wordLoop_length rest ns h2]
    refine ⟨hlen, fun hne => ?_⟩
    rw [show doAction ("write" :: "holding" :: addr :: rest) =
        doWriteHolding ("write" :: "holding" :: addr :: rest) from rfl]
    rw [doWriteHolding_ok _ ws hws]
    have h2 : ¬ ws.length < 2 := by
      have : 0 < rest.length := List.length_pos.mpr hne
      omega
    rw [if_neg h2]

/-- Claim C3 — witness: the dispatch of `write holding 0 0x100` through the
amended theorem. -/
theorem claim_C3_witness :
    doAction ["write", "holding", "0", "0x100"] =
      Dispatch.writeMultipleRegisters
        (posOr ["write", "holding", "0", "0x100"] 2 (JsVal.num 0)) [1, 0] :=
  ((claim_C3_amended "0" ["0x100"]).2 [1, 0] rfl).2 (by decide)

/-- Claim C4 — counterexample.  The action `generic` is not in the accepted
action list and the dispatcher's default arm rejects it as an unknown
action (exit 1); there is no generic function-code branch. -/
theorem claim_C4_counterexample :
    actionAccepted ["generic", "3", "0x01", "0x02"] = false ∧
    doAction ["generic", "3", "0x01", "0x02"] =
      Dispatch.exitFatal "Unknown action: generic" := by
  decide

/-- Claim C4 — amended.  The accepted action set is exactly
`{read, write, command}`; any `generic` command fails the action check and
falls to the dispatcher's unknown-action fatal arm. -/
theorem claim_C4_amended :
    (∀ pos : List String, actionAccepted pos = true ↔
      (posVal pos 0 = .str "read" ∨ posVal pos 0 = .str "write" ∨
        posVal pos 0 = .str "command")) ∧
    (∀ rest : List String, doAction ("generic" :: rest) =
      Dispatch.exitFatal "Unknown action: generic") := by
  constructor
  · intro pos
    unfold actionAccepted actionList
    simp only [List.any_cons, List.any_nil, Bool.or_eq_true, decide_eq_true_eq,
      Bool.or_false]
    constructor
    · rintro (h | h | h)
      · exact Or.inl h.symm
      · exact Or.inr (Or.inl h.symm)
      · exact Or.inr (Or.inr h.symm)
    · rintro (h | h | h)
      · exact Or.inl h.symm
      · exact Or.inr (Or.inl h.symm)
      · exact Or.inr (Or.inr h.symm)
  · intro rest
    rfl

/-- Claim C4 — witness instance of the amended theorem. -/
theorem claim_C4_witness :
    doAction ["generic"] = Dispatch.exitFatal "Unknown action: generic" :=
  claim_C4_amended.2 []

/-- Claim C5 — counterexample.  A `write object` command is not dispatched
to an object-write operation: the `case 'object'` of the write switch is
commented out in the source, so it falls to the unknown-write fatal arm. -/
theorem claim_C5_counterexample :
    doAction ["write", "object", "1", "0x01"] =
      Dispatch.exitFatal "Trying to write unknown item object" := by
  decide

/-- Claim C5 — amended.  For every argument tail, `write object` is treated
as an unknown write type and exits fatally; no object-write call exists in
the dispatcher. -/
theorem claim_C5_amended (rest : List String) :
    doAction ("write" :: "object" :: rest) =
      Dispatch.exitFatal "Trying to write unknown item object" := rfl

/-- Claim C5 — witness instance of the amended theorem. -/
theorem claim_C5_witness :
    doAction ["write", "object"] =
      Dispatch.exitFatal "Trying to write unknown item object" :=
  claim_C5_amended []

/-- Concrete arguments for the claim C6 counterexample: `--save` together
with a MAC-address port identifier. -/
def c6Args : Args := { save := true, port := .str "AA:BB:CC:DD:EE:FF" }

/-- Claim C6 — counterexample.  With `--save` and a MAC-address port, the
configuration written to the persisted-defaults file still carries the
pre-rewrite `rtu`/`serial` transport/connection kinds, while the
configuration used for connection and dispatch carries the derived
`ip`/`ble` rewrite: the save at lines 150-156 runs before the MAC test at
lines 160-173, so the serialized configuration does not include the
derived rewrite. -/
theorem claim_C6_counterexample :
    (savedConfig c6Args {} (Except.error ())).map Config.transportType =
      some (JsVal.str "rtu") ∧
    (savedConfig c6Args {} (Except.error ())).map Config.connectionType =
      some (JsVal.str "serial") ∧
    (finalConfig c6Args {} (Except.error ())).transportType = JsVal.str "ip" ∧
    (finalConfig c6Args {} (Except.error ())).connectionType = JsVal.str "ble" := by
  decide

/-- Claim C6 — amended.  When the save flag is present, the configuration
serialized to the persisted-defaults file is the override-resolved
configuration before the MAC-address rewrite; the write still happens
before connection open and command dispatch, and a filesystem failure
during the write terminates the process with exit code 1. -/
theorem claim_C6_amended (a : Args) (e : Env) (f : Except Unit Config)
    (h : a.save = true) :
    savedConfig a e f = some (resolveConfig a e f) ∧
    (startupTrace a e f true).1 =
      [Ev.writeFile (resolveConfig a e f),
        Ev.openConn (finalConfig a e f), Ev.dispatch] ∧
    (startupTrace a e f true).2 = none ∧
    (startupTrace a e f false).2 = some 1 := by
  refine ⟨?_, ?_, ?_, ?_⟩
  · simp [savedConfig, h]
  · simp [startupTrace, h, finalConfig]
  · simp [startupTrace, h]
  · simp [startupTrace, h]

/-- Claim C6 — witness instance of the amended theorem. -/
theorem claim_C6_witness :
    savedConfig { save := true } {} (Except.error ()) =
      some (resolveConfig { save := true } {} (Except.error ())) :=
  (claim_C6_amended { save := true } {} (Except.error ()) rfl).1

/-- Claim C7: `parseNumber` returns the supplied default when the token is
undefined; a token with a leading `0x` prefix is interpreted as
hexadecimal, and an all-decimal-digit token as decimal; in particular
`parseNumber("0x1A", 0) = 26`, `parseNumber(undefined, 7) = 7` and
`parseNumber("42", 0) = 42`. -/
theorem claim_C7_parseNumber :
    (∀ d : Int, parseNumber none d = some d) ∧
    parseNumber (some "0x1A") 0 = some 26 ∧
    parseNumber (some "42") 0 = some 42 ∧
    (∀ (t : String) (d : Int), t.data ≠ [] →
      (∀ c ∈ t.data, (hexDigitVal c).isSome = true) →
      parseNumber (some ("0x" ++ t)) d =
        some (Int.ofNat (digitsToNat 16
          (t.data.map (fun c => (hexDigitVal c).getD 0))))) ∧
    (∀ (t : String) (d : Int), t.data ≠ [] →
      (∀ c ∈ t.data, (decDigitVal c).isSome = true) →
      parseNumber (some t) d =
        some (Int.ofNat (digitsToNat 10
          (t.data.map (fun c => (decDigitVal c).getD 0))))) := by
  refine ⟨fun d => rfl, by decide, by decide, ?_, ?_⟩
  · intro t d hne h
    rw [parseNumber_some, jsParseInt_hexadecimal t hne h]
  · intro t d hne h
    rw [parseNumber_some, jsParseInt_decimal t hne h]

/-- Claim C7 — witness: the hexadecimal and decimal arms of the theorem at
concrete tokens. -/
theorem claim_C7_witness :
    parseNumber (some ("0x" ++ "2B")) 0 = some 43 ∧
    parseNumber (some "123") 9 = some 123 := by
  constructor
  · rw [claim_C7_parseNumber.2.2.2.1 "2B" 0 (by decide) (by decide)]
    decide
  · rw [claim_C7_parseNumber.2.2.2.2 "123" 9 (by decide) (by decide)]
    decide

/-- Claim C8: with `--default` not given, an absent or unparsable
persisted-defaults file (both modelled by the throw of `require`) makes
configuration resolution fall back to the built-in defaults exactly as if
the file were absent; the load is a total catch (no process exit on this
path), and resolution proceeds with the overrides applied to the
builtins. -/
theorem claim_C8_fallback (a : Args) (e : Env) (hd : a.default = false) :
    loadConfig a.default (Except.error ()) = CONFIG_DEFAULTS ∧
    resolveConfig a e (Except.error ()) = applyOverrides a e CONFIG_DEFAULTS := by
  constructor
  · rw [hd]
    rfl
  · show applyOverrides a e (loadConfig a.default (Except.error ())) = _
    rw [hd]
    rfl

/-- Claim C8 — witness instance of the fallback theorem. -/
theorem claim_C8_witness :
    resolveConfig {} {} (Except.error ()) =
      applyOverrides {} {} CONFIG_DEFAULTS :=
  (claim_C8_fallback {} {} rfl).2

/-- Claim C9: the completion callback — a non-null error terminates with
exit code 1; on success with CSV output requested exactly one line is
printed, the elapsed milliseconds since the connected notification
followed by the response's bytes, comma-joined; on success without loop
mode the process exits 0, and with loop mode the next dispatch is
scheduled instead of exiting. -/
theorem claim_C9_output (msg : String) (o : Option String) (l : Bool)
    (t : Int) (b : List Nat) :
    (output (some msg) o l t b).exitCode = some 1 ∧
    (output none (some "csv") l t b).printed =
      [toString t ++ "," ++ joinComma b] ∧
    (output none o false t b).exitCode = some 0 ∧
    (output none o false t b).scheduledNext = false ∧
    (output none o true t b).exitCode = none ∧
    (output none o true t b).scheduledNext = true := by
  refine ⟨rfl, ?_, by simp [output], by simp [output], by simp [output],
    by simp [output]⟩
  cases l <;> simp [output]

/-- Claim C10: the byte- and word-sequence parsers exit fatally exactly
when some token parses to a finite number outside `[0,255]` (respectively
`[0,65535]`); a non-numeric token parses to `NaN`, which the range guard
does not reject: it is pushed into the buffer, coerces to byte 0, and the
command proceeds to the protocol-master call. -/
theorem claim_C10_range_guard :
    (∀ (argv : List String) (start : Nat),
      (∃ m, argsToByteBuf argv start = .error m) ↔
        ∃ t ∈ argv.drop start, ∃ n : Int,
          tokVal t = some n ∧ (n < 0 ∨ 255 < n)) ∧
    (∀ (argv : List String) (start : Nat),
      (∃ m, argsToWordBuf argv start = .error m) ↔
        ∃ t ∈ argv.drop start, ∃ n : Int,
          tokVal t = some n ∧ (n < 0 ∨ 65535 < n)) ∧
    tokVal "stuff" = none ∧
    argsToByteBuf ["stuff"] 0 = Except.ok [0] ∧
    doAction ["write", "memory", "0", "stuff"] =
      Dispatch.writeMemory (some 0) [0] := by
  refine ⟨?_, ?_, by decide, rfl, by decide⟩
  · intro argv start
    unfold argsToByteBuf
    rw [exceptMap_error_iff]
    exact byteLoop_error_iff _
  · intro argv start
    unfold argsToWordBuf
    rw [exceptMap_error_iff]
    exact wordLoop_error_iff _

end MbCli
